import Mathlib

/-!
Verification development for the star-voucher bot (`src/bot.py`).

The Python program keeps all state in in-memory dictionaries and lists.
We embed it shallowly:

* Python `dict` becomes an association list (`List (k × v)`) with
  insertion-order semantics: `pyGet` is `d.get(k)` / `k in d`,
  `pySet` is `d[k] = v` (update in place if present, append otherwise).
* Python `float` amounts become `Rat` (the program only ever adds and
  subtracts amounts; on the decimal literals involved the arithmetic is
  exact, so `Rat` is the faithful value model).
* `datetime.now()` and `str(uuid4())[:8].upper()` are nondeterministic
  inputs; operations take the current time and the generated token as
  explicit arguments.
* Each mutating method of a class becomes a function from the class's
  state (plus arguments) to `result × state`.
-/

namespace StarBot

/-- Model of `d.get(k)`: first binding of `k` in the association list, if any. -/
def pyGet {α β : Type} [DecidableEq α] : List (α × β) → α → Option β
  | [], _ => none
  | (k, v) :: rest, key => if k = key then some v else pyGet rest key

/-- Model of `d[k] = v`: replace the binding in place if `k` is present
(keeping its position, as a Python dict does), else append it. -/
def pySet {α β : Type} [DecidableEq α] : List (α × β) → α → β → List (α × β)
  | [], key, v => [(key, v)]
  | (k, w) :: rest, key, v =>
    if k = key then (key, v) :: rest else (k, w) :: pySet rest key v

/-- Model of `s.add(x)` on a Python set, as a duplicate-free list. -/
def setAdd (l : List Int) (x : Int) : List Int :=
  if x ∈ l then l else l ++ [x]

/-! ### StarCheckBot data -/

/-- One entry of `StarCheckBot.star_checks` (the dict literal built in
`create_check`; the three claim fields are mutated by `claim_check`). -/
structure Check where
  userId : Int
  amount : Rat
  createdAt : Nat
  claimed : Bool
  claimedBy : Option Int
  claimedAt : Option Nat
  creatorName : String
  isNft : Bool
  status : String
  isInline : Bool
  deriving DecidableEq, Repr

/-- One entry of `StarCheckBot.inline_checks`. -/
structure InlineCheck where
  checkId : String
  amount : Rat
  creatorId : Int
  createdAt : Nat
  deriving DecidableEq, Repr

/-- One entry of `StarCheckBot.admins`. -/
structure AdminRec where
  id : Int
  username : Option String
  addedAt : Nat
  deriving DecidableEq, Repr

/-- The mutable state of a `StarCheckBot` instance (its `__init__` fields). -/
structure StarState where
  starChecks : List (String × Check)
  userChecks : List (Int × List String)
  admins : List AdminRec
  inlineChecks : List (String × InlineCheck)
  autoGiftsUsers : List Int
  userWallets : List (Int × Rat)
  deriving DecidableEq, Repr

/-- The freshly constructed `StarCheckBot` (before any `ADMIN_ID` seeding). -/
def emptyStar : StarState := ⟨[], [], [], [], [], []⟩

/-- Model of `get_user_wallet`: `self.user_wallets.get(user_id, 0.0)`. -/
def get_user_wallet (s : StarState) (userId : Int) : Rat :=
  (pyGet s.userWallets userId).getD 0

/-- Model of `add_stars_to_wallet`: default the entry to `0.0` if missing, then
`+= amount`; returns the updated balance together with the new state. -/
def add_stars_to_wallet (s : StarState) (userId : Int) (amount : Rat) :
    Rat × StarState :=
  let w :=
    if (pyGet s.userWallets userId).isNone then pySet s.userWallets userId 0
    else s.userWallets
  let cur := (pyGet w userId).getD 0
  let w' := pySet w userId (cur + amount)
  ((pyGet w' userId).getD 0, { s with userWallets := w' })

/-- Model of `subtract_stars_from_wallet`: default the entry to `0.0` if missing;
if the balance covers `amount` subtract it, otherwise zero the account
(the local `amount` is reassigned to the old balance but, as in the
source, the function returns `self.user_wallets[user_id]`, the new
balance, in both branches). -/
def subtract_stars_from_wallet (s : StarState) (userId : Int) (amount : Rat) :
    Rat × StarState :=
  let w :=
    if (pyGet s.userWallets userId).isNone then pySet s.userWallets userId 0
    else s.userWallets
  let cur := (pyGet w userId).getD 0
  let w' := if amount ≤ cur then pySet w userId (cur - amount) else pySet w userId 0
  ((pyGet w' userId).getD 0, { s with userWallets := w' })

/-- The value `claim_check` returns (one constructor per `return` site). -/
inductive ClaimResult where
  /-- The value `{'success': False, 'message': 'Чек не найден'}` -/
  | notFound
  /-- The value `{'success': False, 'message': 'Чек уже был получен'}` -/
  | alreadyClaimed
  /-- the non-NFT success dict, carrying `amount` and `new_balance` -/
  | starsSuccess (amount : Rat) (newBalance : Rat)
  /-- the NFT success dict, carrying `new_balance` -/
  | nftSuccess (newBalance : Rat)
  /-- The value `{'success': False, 'message': 'Неизвестная ошибка'}` -/
  | unknownError
  deriving DecidableEq, Repr

/-- Model of `claim_check`: resolve the id, reject if already claimed, otherwise mark
claimed (this mutation happens before the crediting branch, exactly as in
the source) and credit the wallet unless the check is the NFT variant. -/
def claim_check (s : StarState) (checkId : String) (userId : Int) (now : Nat) :
    ClaimResult × StarState :=
  match pyGet s.starChecks checkId with
  | none => (ClaimResult.notFound, s)
  | some c =>
    if c.claimed then (ClaimResult.alreadyClaimed, s)
    else
      let c' := { c with claimed := true, claimedBy := some userId,
                         claimedAt := some now }
      let s₁ := { s with starChecks := pySet s.starChecks checkId c' }
      if !c'.isNft && 0 < c'.amount then
        let r := add_stars_to_wallet s₁ userId c'.amount
        (ClaimResult.starsSuccess c'.amount r.1, r.2)
      else if c'.isNft then
        (ClaimResult.nftSuccess (get_user_wallet s₁ userId), s₁)
      else
        (ClaimResult.unknownError, s₁)

/-- The dict literal stored by `create_check` (with `'is_nft': amount == 0`). -/
def mkNewCheck (userId : Int) (amount : Rat) (now : Nat) (isInline : Bool) :
    Check :=
  { userId := userId, amount := amount, createdAt := now,
    claimed := false, claimedBy := none, claimedAt := none,
    creatorName := "Пользователь", isNft := amount = 0,
    status := "active", isInline := isInline }

/-- Model of `create_check`: store the new check under the generated token `genId`
(the source performs `str(uuid4())[:8].upper()` with no collision check and
assigns directly into `star_checks`), append the id to the issuer's list,
record an inline entry when requested, and return `(check_id, link)`. -/
def create_check (s : StarState) (userId : Int) (amount : Rat)
    (isInline : Bool) (genId : String) (now : Nat) :
    (String × String) × StarState :=
  let check := mkNewCheck userId amount now isInline
  let starChecks' := pySet s.starChecks genId check
  let prev := (pyGet s.userChecks userId).getD []
  let userChecks' := pySet s.userChecks userId (prev ++ [genId])
  let inlineChecks' :=
    if isInline then pySet s.inlineChecks genId ⟨genId, amount, userId, now⟩
    else s.inlineChecks
  let link := "https://t.me/NftkeysswalletBot?start=check_" ++ genId
  ((genId, link),
   { s with starChecks := starChecks', userChecks := userChecks',
            inlineChecks := inlineChecks' })

/-- Model of `create_inline_check`: `create_check(user_id, amount, is_inline=True)`. -/
def create_inline_check (s : StarState) (userId : Int) (amount : Rat)
    (genId : String) (now : Nat) : (String × String) × StarState :=
  create_check s userId amount true genId now

/-- Model of `add_admin`: no-op if the id is already listed, else append a record. -/
def add_admin (s : StarState) (userId : Int) (username : Option String)
    (now : Nat) : Int × StarState :=
  if s.admins.any (fun a => a.id = userId) then (userId, s)
  else (userId, { s with admins := s.admins ++ [⟨userId, username, now⟩] })

/-- Model of `is_admin`: linear scan of the admin list. -/
def is_admin (s : StarState) (userId : Int) : Bool :=
  s.admins.any (fun a => a.id = userId)

/-! ### VerificationBot data -/

/-- One entry of `VerificationBot.pending_verifications`.  The Python dict
gains `approved_by`/`approved_at` (resp. `rejected_by`/`rejected_at`) keys
only when a decision is recorded; we model them as `Option` fields that
start out `none`. -/
structure Verification where
  userId : Int
  phone : String
  code : String
  createdAt : Nat
  status : String
  approvedBy : Option Int
  approvedAt : Option Nat
  rejectedBy : Option Int
  rejectedAt : Option Nat
  deriving DecidableEq, Repr

/-- One entry of `VerificationBot.website_verifications`. -/
structure WebsiteVerification where
  verificationId : String
  phone : String
  code : String
  ip : String
  createdAt : Nat
  status : String
  deriving DecidableEq, Repr

/-- The mutable state of a `VerificationBot` instance. -/
structure VerifState where
  pendingVerifications : List (String × Verification)
  verifiedUsers : List Int
  websiteVerifications : List WebsiteVerification
  deriving DecidableEq, Repr

/-- The freshly constructed `VerificationBot`. -/
def emptyVerif : VerifState := ⟨[], [], []⟩

/-- Model of `add_verification`: store a pending session verification under the
generated token and return the token. -/
def add_verification (s : VerifState) (userId : Int) (phone code : String)
    (genId : String) (now : Nat) : String × VerifState :=
  (genId,
   { s with pendingVerifications :=
       (pySet s.pendingVerifications genId
         ⟨userId, phone, code, now, "pending", none, none, none, none⟩) })

/-- Model of `add_website_verification`: append the submission record and return the
generated token. -/
def add_website_verification (s : VerifState) (phone code ip : String)
    (genId : String) (now : Nat) : String × VerifState :=
  (genId,
   { s with websiteVerifications :=
       (s.websiteVerifications ++ [⟨genId, phone, code, ip, now, "pending"⟩]) })

/-- Model of `approve_verification`: if the id is a key of `pending_verifications`
(whatever its current status), overwrite status/decider/timestamp, add the
user to `verified_users` and return `True`; else return `False`. -/
def approve_verification (s : VerifState) (verificationId : String)
    (adminId : Int) (now : Nat) : Bool × VerifState :=
  match pyGet s.pendingVerifications verificationId with
  | none => (false, s)
  | some v =>
    let v' := { v with status := "approved", approvedBy := some adminId,
                       approvedAt := some now }
    (true,
     { s with pendingVerifications := pySet s.pendingVerifications verificationId v',
              verifiedUsers := setAdd s.verifiedUsers v.userId })

/-- Model of `reject_verification`: same membership test as approval; overwrites
status/decider/timestamp and returns `True` whenever the id is known. -/
def reject_verification (s : VerifState) (verificationId : String)
    (adminId : Int) (now : Nat) : Bool × VerifState :=
  match pyGet s.pendingVerifications verificationId with
  | none => (false, s)
  | some v =>
    let v' := { v with status := "rejected", rejectedBy := some adminId,
                       rejectedAt := some now }
    (true,
     { s with pendingVerifications := pySet s.pendingVerifications verificationId v' })

/-- Model of `is_user_verified`: membership in `verified_users`. -/
def is_user_verified (s : VerifState) (userId : Int) : Bool :=
  userId ∈ s.verifiedUsers

/-- Model of `get_website_verifications`: the source returns
`self.website_verifications[-limit:] if self.website_verifications else []`.
For `limit > 0` the slice `[-limit:]` starts at `max(n - limit, 0)`, i.e. it
drops `n - limit` elements (truncated subtraction); for `limit = 0` the
start index `-0` equals `0`, so the slice is the whole list. -/
def get_website_verifications (s : VerifState) (limit : Nat) :
    List WebsiteVerification :=
  if s.websiteVerifications = [] then []
  else if limit = 0 then s.websiteVerifications
  else s.websiteVerifications.drop (s.websiteVerifications.length - limit)

/-- Model of `clear_website_verifications`: reset the list. -/
def clear_website_verifications (s : VerifState) : VerifState :=
  { s with websiteVerifications := [] }

/-! ### The `/webhook` Flask handler -/

/-- Model of `str.strip()` on the submitted fields: remove leading and trailing
whitespace.  (Python strips all Unicode whitespace; `Char.isWhitespace`
covers the ASCII space/tab/newline characters that occur here.) -/
def pyStrip (s : String) : String :=
  String.mk
    (((s.data.dropWhile Char.isWhitespace).reverse.dropWhile
        Char.isWhitespace).reverse)

/-- Model of `phone.startswith('+')`: the first character is `'+'`. -/
def pyStartsWithPlus (s : String) : Bool :=
  match s.data with
  | [] => false
  | c :: _ => c = '+'

/-- A single character of a string accepted by Python's `str.isdigit`.
Python accepts every character with Unicode property `Numeric_Type=Digit`
or `Numeric_Type=Decimal`; besides ASCII `0-9` this includes, among
others, the Arabic-Indic digits U+0660–U+0669, the fullwidth digits
U+FF10–U+FF19 and the superscripts `¹²³`.  We model the ASCII digits plus
those representative non-ASCII ranges. -/
def pyIsDigitChar (c : Char) : Bool :=
  c.isDigit
  || (0x660 ≤ c.toNat && c.toNat ≤ 0x669)
  || (0xFF10 ≤ c.toNat && c.toNat ≤ 0xFF19)
  || c.toNat = 0xB2 || c.toNat = 0xB3 || c.toNat = 0xB9

/-- Model of `str.isdigit()`: non-empty and every character a digit character. -/
def pyIsDigitStr (s : String) : Bool :=
  !s.data.isEmpty && s.data.all pyIsDigitChar

/-- The JSON body `{phone, code}` of a `/webhook` request; each field may be
absent (`data.get` then defaults it to `""`). -/
structure WebhookBody where
  phone : Option String
  code : Option String
  deriving DecidableEq, Repr

/-- The response of `webhook_handler` (one constructor per `return` site on
the validation path). -/
inductive WebhookResult where
  /-- The value `'No data received'`, HTTP 400 -/
  | noData
  /-- The value `'Phone or code missing'`, HTTP 400 -/
  | missingField
  /-- The value `'Phone must start with +'`, HTTP 400 -/
  | phoneInvalid
  /-- The value `'Code must be 6 digits'`, HTTP 400 -/
  | codeInvalid
  /-- the success JSON carrying `verification_id`, HTTP 200 -/
  | accepted (verificationId : String)
  deriving DecidableEq, Repr

/-- Model of `webhook_handler`: validate the stripped fields in the order of the
source, then record the submission via `add_website_verification`. -/
def webhook_handler (s : VerifState) (body : Option WebhookBody)
    (ip : String) (genId : String) (now : Nat) : WebhookResult × VerifState :=
  match body with
  | none => (WebhookResult.noData, s)
  | some data =>
    let phone := pyStrip ((data.phone).getD "")
    let code := pyStrip ((data.code).getD "")
    if phone.data.isEmpty || code.data.isEmpty then (WebhookResult.missingField, s)
    else if !(pyStartsWithPlus phone) then (WebhookResult.phoneInvalid, s)
    else if code.length ≠ 6 || !(pyIsDigitStr code) then
      (WebhookResult.codeInvalid, s)
    else
      let r := add_website_verification s phone code ip genId now
      (WebhookResult.accepted r.1, r.2)

/-! ### The custom-amount conversation flow -/

/-- The value a conversation handler returns to the dispatcher:
`GET_AMOUNT` keeps the session in the awaiting-amount state,
`ConversationHandler.END` returns it to no active flow. -/
inductive ConvState where
  | getAmount
  | ended
  deriving DecidableEq, Repr

/-- Which message `get_custom_amount` sends. -/
inductive AmountOutcome where
  /-- The value `'Введите корректное число.'` (the `ValueError` branch) -/
  | invalidNumber
  /-- The value `'Сумма должна быть от 1 до 10000.'` -/
  | invalidRange
  /-- a check was generated with the given id and link -/
  | created (checkId : String) (link : String)
  /-- the range check passed on a non-finite value (only NaN can reach
  this branch: both comparisons are false for NaN, while `inf` fails
  `> 10000` and `-inf` fails `<= 0`).  The source then calls
  `generate_check` with the NaN float and ends the conversation; the
  resulting registry record carries a NaN amount, which lies outside the
  exact-rational value model, so this outcome reports only the
  control-flow facts (no error is surfaced, the flow ends) and no theorem
  asserts anything about the registry state of this branch. -/
  | acceptedNonFinite
  deriving DecidableEq, Repr

/-- The result of Python's `float(text)`: a finite value (modelled exactly
as a rational), one of the two infinities, or NaN. -/
inductive PyFloat where
  | finite (q : Rat)
  | inf
  | negInf
  | nan
  deriving DecidableEq, Repr

/-- A decimal-digit character as accepted by Python's `float()`/`int()`
(Unicode category `Nd`), with its value: ASCII `0-9` plus the
representative non-ASCII ranges U+0660–U+0669 (Arabic-Indic) and
U+FF10–U+FF19 (fullwidth).  This is a documented partial table of `Nd`;
note `float()` does **not** accept the `isdigit`-true superscripts, which
are not `Nd`. -/
def pyFloatDigitVal (c : Char) : Option Nat :=
  if c.isDigit then some (c.toNat - ('0').toNat)
  else if 0x660 ≤ c.toNat && c.toNat ≤ 0x669 then some (c.toNat - 0x660)
  else if 0xFF10 ≤ c.toNat && c.toNat ≤ 0xFF19 then some (c.toNat - 0xFF10)
  else none

/-- Consume `digit (("_") digit)*` from the head of the list (Python
allows a single underscore strictly between digits); returns the
accumulated value, the number of digits consumed, and the rest.  A
trailing or doubled underscore is left in the rest (and thus rejected by
the callers, as `float` rejects it). -/
def digitPartLoop : List Char → Nat → Nat → Nat × Nat × List Char
  | [], acc, n => (acc, n, [])
  | c :: rest, acc, n =>
    match pyFloatDigitVal c with
    | some d => digitPartLoop rest (acc * 10 + d) (n + 1)
    | none =>
      match c, rest with
      | '_', c2 :: rest2 =>
        match pyFloatDigitVal c2 with
        | some d => digitPartLoop rest2 (acc * 10 + d) (n + 1)
        | none => (acc, n, c :: rest)
      | _, _ => (acc, n, c :: rest)

/-- A `digitpart` of a Python float literal: at least one digit, with
optional single underscores between digits. -/
def parseDigitPart (cs : List Char) : Option (Nat × Nat × List Char) :=
  match cs with
  | [] => none
  | c :: rest =>
    match pyFloatDigitVal c with
    | none => none
    | some d => some (digitPartLoop rest d 1)

/-- The rational `m * 10 ^ e`.  The multiplication stays in `Int` when the
net power is non-negative, so integer-valued literals evaluate by kernel
reduction; the division branch is used only for genuinely fractional
values. -/
def scaleByPow10 (m : Int) (e : Int) : Rat :=
  if 0 ≤ e then ((m * 10 ^ e.toNat : Int) : Rat)
  else (m : Rat) / ((10 : Rat) ^ (-e).toNat)

/-- A Python float literal after the optional sign:
`digitpart ["." [digitpart]] | "." digitpart`, then an optional exponent
`("e"|"E") [sign] digitpart`; nothing may follow. -/
def parseDecimalFloat (cs : List Char) : Option Rat :=
  let ip :=
    match parseDigitPart cs with
    | some r => r
    | none => (0, 0, cs)
  let fp :=
    match ip.2.2 with
    | c :: r =>
      if c = '.' then
        match parseDigitPart r with
        | some r2 => r2
        | none => (0, 0, r)
      else (0, 0, ip.2.2)
    | [] => (0, 0, ip.2.2)
  if ip.2.1 = 0 ∧ fp.2.1 = 0 then none
  else
    let m : Int := ((ip.1 * 10 ^ fp.2.1 + fp.1 : Nat) : Int)
    match fp.2.2 with
    | [] => some (scaleByPow10 m (-(fp.2.1 : Int)))
    | e :: r3 =>
      if e = 'e' ∨ e = 'E' then
        let ex :=
          match r3 with
          | c2 :: rr =>
            if c2 = '+' then ((1 : Int), rr)
            else if c2 = '-' then ((-1 : Int), rr)
            else ((1 : Int), r3)
          | [] => ((1 : Int), r3)
        match parseDigitPart ex.2 with
        | some (ev, _, []) => some (scaleByPow10 m (ex.1 * ev - fp.2.1))
        | _ => none
      else none

/-- Python's `float(text)`: strip surrounding whitespace, then an optional
sign followed by `inf`/`infinity`/`nan` (case-insensitive) or a decimal
literal with optional fraction, underscores and exponent.  The finite
values are modelled exactly as rationals (the declared value model): IEEE
double rounding, overflow of huge literals to `inf` and underflow of tiny
literals to `0.0` are not reproduced, which can move inputs within a
rounding error of the range bounds across the branch; every input a
theorem below evaluates is exact in both semantics. -/
def pyParseFloat (s : String) : Option PyFloat :=
  match (pyStrip s).data with
  | [] => none
  | c :: rest =>
    let sp :=
      if c = '-' then (true, rest)
      else if c = '+' then (false, rest)
      else (false, c :: rest)
    let lower := sp.2.map Char.toLower
    if lower = ('i' :: 'n' :: 'f' :: []) ∨ lower = "infinity".data then
      some (if sp.1 then PyFloat.negInf else PyFloat.inf)
    else if lower = ('n' :: 'a' :: 'n' :: []) then some PyFloat.nan
    else
      match parseDecimalFloat sp.2 with
      | none => none
      | some q => some (PyFloat.finite (if sp.1 then -q else q))

/-- The comparison `amount <= y` on a Python float: false for NaN, true
for `-inf`, false for `inf`. -/
def pyFloatLe : PyFloat → Rat → Bool
  | PyFloat.finite q, y => q ≤ y
  | PyFloat.inf, _ => false
  | PyFloat.negInf, _ => true
  | PyFloat.nan, _ => false

/-- The comparison `amount > y` on a Python float: false for NaN and
`-inf`, true for `inf`. -/
def pyFloatGt : PyFloat → Rat → Bool
  | PyFloat.finite q, y => y < q
  | PyFloat.inf, _ => true
  | PyFloat.negInf, _ => false
  | PyFloat.nan, _ => false

/-- Model of `generate_check` (the conversation-side issuance): calls
`star_bot.create_check(user.id, amount)` with the default
`is_inline=False` and clears the waiting flag. -/
def generate_check (s : StarState) (userId : Int) (amount : Rat)
    (genId : String) (now : Nat) : (String × String) × StarState :=
  create_check s userId amount false genId now

/-- Model of `get_custom_amount`: parse the free text with `float`; a
`ValueError` or an amount failing `amount <= 0 or amount > 10000` (with
Python's comparison semantics, under which NaN fails neither test) replies
with an error and stays in `GET_AMOUNT`; otherwise `generate_check` runs
and the conversation ends.  The accepted value is finite in every case but
NaN; see `AmountOutcome.acceptedNonFinite` for that branch. -/
def get_custom_amount (s : StarState) (text : String) (userId : Int)
    (genId : String) (now : Nat) : ConvState × AmountOutcome × StarState :=
  match pyParseFloat text with
  | none => (ConvState.getAmount, AmountOutcome.invalidNumber, s)
  | some amount =>
    if pyFloatLe amount 0 || pyFloatGt amount 10000 then
      (ConvState.getAmount, AmountOutcome.invalidRange, s)
    else
      match amount with
      | PyFloat.finite q =>
        let r := generate_check s userId q genId now
        (ConvState.ended, AmountOutcome.created r.1.1 r.1.2, r.2)
      | _ => (ConvState.ended, AmountOutcome.acceptedNonFinite, s)

/-! ### Derived definitions used by the theorems -/

/-- The claimed-marked copy of a check. -/
def markClaimed (c : Check) (uid : Int) (now : Nat) : Check :=
  { c with claimed := true, claimedBy := some uid, claimedAt := some now }

/-- The shape `create_check` gives every stored check: a non-negative
amount with the NFT flag set exactly on amount zero. -/
def checkWellFormed (c : Check) : Prop :=
  0 ≤ c.amount ∧ c.isNft = decide (c.amount = 0)

/-- The wallet-touching operations of the program: `add_stars_to_wallet`,
`subtract_stars_from_wallet`, `claim_check` (which credits through
`add_stars_to_wallet`), and the read `get_user_wallet`. -/
inductive WalletOp where
  | credit (userId : Int) (amount : Rat)
  | debit (userId : Int) (amount : Rat)
  | claim (checkId : String) (userId : Int) (now : Nat)
  | read (userId : Int)
  deriving DecidableEq, Repr

/-- Run one wallet operation, keeping its state effect. -/
def applyOp (s : StarState) : WalletOp → StarState
  | WalletOp.credit u a => (add_stars_to_wallet s u a).2
  | WalletOp.debit u a => (subtract_stars_from_wallet s u a).2
  | WalletOp.claim cid u now => (claim_check s cid u now).2
  | WalletOp.read _ => s

/-- The side condition of C5: credit is only invoked with positive amounts
(and debit with positive amounts, as the claim phrases it). -/
def opPositive : WalletOp → Prop
  | WalletOp.credit _ a => 0 < a
  | WalletOp.debit _ a => 0 < a
  | _ => True

instance : DecidablePred opPositive := by
  intro op
  cases op <;> simp [opPositive] <;> infer_instance

/-- Every identity's effective wallet balance is non-negative. -/
def WalletsNonneg (s : StarState) : Prop :=
  ∀ u : Int, 0 ≤ get_user_wallet s u

/-- The amended C6 acceptance predicate, stated from the spec's words with
the two corrections the handler forces: the checks apply to the **stripped**
fields, and the digit test is Python's `str.isdigit` (which also accepts
non-ASCII digit characters). -/
def ValidSubmission : Option WebhookBody → Prop
  | none => False
  | some d =>
    pyStartsWithPlus (pyStrip (d.phone.getD "")) = true
    ∧ (pyStrip (d.code.getD "")).length = 6
    ∧ pyIsDigitStr (pyStrip (d.code.getD "")) = true

/-- A concrete recorded external submission. -/
def wvSample : WebsiteVerification :=
  ⟨"AAAA1111", "+15551234567", "123456", "203.0.113.7", 0, "pending"⟩

/-- A verification request that was already approved by admin `1` at
time `3`. -/
def decidedVerif : Verification :=
  ⟨42, "+15551234567", "123456", 0, "approved", some 1, some 3, none, none⟩

/-! ### Lemmas about the dict model -/

theorem pyGet_pySet_self {α β : Type} [DecidableEq α]
    (m : List (α × β)) (k : α) (v : β) : pyGet (pySet m k v) k = some v := by
  induction m with
  | nil => simp [pyGet, pySet]
  | cons p rest ih =>
    obtain ⟨k', w⟩ := p
    by_cases h : k' = k <;> simp [pyGet, pySet, h, ih]

theorem pyGet_pySet_ne {α β : Type} [DecidableEq α]
    (m : List (α × β)) (k k' : α) (v : β) (h : k' ≠ k) :
    pyGet (pySet m k v) k' = pyGet m k' := by
  induction m with
  | nil =>
    simp only [pySet, pyGet]
    rw [if_neg (fun hh => h hh.symm)]
  | cons p rest ih =>
    obtain ⟨k₀, w⟩ := p
    by_cases h0 : k₀ = k
    · subst h0
      simp [pyGet, pySet, Ne.symm h]
    · simp [pyGet, pySet, h0, ih]

/-- Membership in the updated list: each binding is the new one or an old one. -/
theorem mem_pySet {α β : Type} [DecidableEq α]
    (m : List (α × β)) (k : α) (v : β) (p : α × β) (hp : p ∈ pySet m k v) :
    p = (k, v) ∨ p ∈ m := by
  induction m with
  | nil => simpa [pySet] using hp
  | cons q rest ih =>
    obtain ⟨k₀, w⟩ := q
    by_cases h0 : k₀ = k
    · rw [pySet, if_pos h0] at hp
      rcases List.mem_cons.mp hp with h1 | h1
      · exact Or.inl h1
      · exact Or.inr (List.mem_cons_of_mem _ h1)
    · rw [pySet, if_neg h0] at hp
      rcases List.mem_cons.mp hp with h1 | h1
      · exact Or.inr (by simp [h1])
      · rcases ih h1 with h2 | h2
        · exact Or.inl h2
        · exact Or.inr (List.mem_cons_of_mem _ h2)

/-! ### Effect lemmas for the wallet primitives -/

/-- Defaulting a missing entry to `0` makes the entry the old effective
balance. -/
theorem pyGet_ensure (m : List (Int × Rat)) (userId : Int) :
    pyGet (if (pyGet m userId).isNone then pySet m userId 0 else m) userId
      = some ((pyGet m userId).getD 0) := by
  cases h : pyGet m userId <;> simp [h, pyGet_pySet_self]

/-- Defaulting a missing entry leaves every other user's entry alone. -/
theorem pyGet_ensure_ne (m : List (Int × Rat)) (userId u : Int) (hu : u ≠ userId) :
    pyGet (if (pyGet m userId).isNone then pySet m userId 0 else m) u
      = pyGet m u := by
  cases h : pyGet m userId <;> simp [h, pyGet_pySet_ne m userId u 0 hu]

theorem add_stars_fst (s : StarState) (userId : Int) (a : Rat) :
    (add_stars_to_wallet s userId a).1 = get_user_wallet s userId + a := by
  unfold add_stars_to_wallet get_user_wallet
  cases h : pyGet s.userWallets userId <;> simp [h, pyGet_pySet_self]

theorem get_user_wallet_add_stars (s : StarState) (userId : Int) (a : Rat)
    (u : Int) :
    get_user_wallet (add_stars_to_wallet s userId a).2 u
      = if u = userId then get_user_wallet s userId + a else get_user_wallet s u := by
  unfold add_stars_to_wallet get_user_wallet
  by_cases hu : u = userId
  · subst hu
    cases h : pyGet s.userWallets u <;> simp [h, pyGet_pySet_self]
  · rw [if_neg hu]
    cases h : pyGet s.userWallets userId <;>
      simp [h, pyGet_pySet_ne, hu]

theorem add_stars_starChecks (s : StarState) (userId : Int) (a : Rat) :
    (add_stars_to_wallet s userId a).2.starChecks = s.starChecks := rfl

theorem subtract_stars_fst (s : StarState) (userId : Int) (a : Rat) :
    (subtract_stars_from_wallet s userId a).1
      = if a ≤ get_user_wallet s userId then get_user_wallet s userId - a else 0 := by
  unfold subtract_stars_from_wallet get_user_wallet
  cases h : pyGet s.userWallets userId <;>
    · simp only [h, pyGet_pySet_self, Option.isNone_none, Option.isNone_some,
        ite_true, ite_false, Option.getD_some, Option.getD_none,
        Bool.false_eq_true, if_false, if_true]
      split <;> simp [pyGet_pySet_self]

theorem get_user_wallet_subtract_stars (s : StarState) (userId : Int) (a : Rat)
    (u : Int) :
    get_user_wallet (subtract_stars_from_wallet s userId a).2 u
      = if u = userId then
          (if a ≤ get_user_wallet s userId then get_user_wallet s userId - a else 0)
        else get_user_wallet s u := by
  unfold subtract_stars_from_wallet get_user_wallet
  by_cases hu : u = userId
  · subst hu
    cases h : pyGet s.userWallets u <;>
      · simp only [h, pyGet_pySet_self, Option.isNone_none, Option.isNone_some,
          ite_true, ite_false, Option.getD_some, Option.getD_none,
          Bool.false_eq_true, if_false, if_true]
        split <;> simp [pyGet_pySet_self]
  · rw [if_neg hu]
    cases h : pyGet s.userWallets userId <;>
      · simp only [h, pyGet_pySet_self, Option.isNone_none, Option.isNone_some,
          ite_true, ite_false, Option.getD_some, Option.getD_none,
          Bool.false_eq_true, if_false, if_true]
        split <;> simp [pyGet_pySet_ne, hu]

/-- A successful lookup comes from a binding of the list. -/
theorem pyGet_mem {α β : Type} [DecidableEq α]
    (m : List (α × β)) (k : α) (v : β) (h : pyGet m k = some v) : (k, v) ∈ m := by
  induction m with
  | nil => simp [pyGet] at h
  | cons p rest ih =>
    obtain ⟨k₀, w⟩ := p
    by_cases h0 : k₀ = k
    · subst h0
      rw [pyGet, if_pos rfl] at h
      exact (Option.some_inj.mp h) ▸ List.mem_cons_self _ _
    · rw [pyGet, if_neg h0] at h
      exact List.mem_cons_of_mem _ (ih h)

/-! ### Effect lemmas for `create_check` and `claim_check` -/

theorem create_check_fst (s : StarState) (userId : Int) (amount : Rat)
    (isInline : Bool) (genId : String) (now : Nat) :
    (create_check s userId amount isInline genId now).1.1 = genId := rfl

theorem create_check_starChecks (s : StarState) (userId : Int) (amount : Rat)
    (isInline : Bool) (genId : String) (now : Nat) :
    (create_check s userId amount isInline genId now).2.starChecks
      = pySet s.starChecks genId (mkNewCheck userId amount now isInline) := rfl

theorem create_check_userWallets (s : StarState) (userId : Int) (amount : Rat)
    (isInline : Bool) (genId : String) (now : Nat) :
    (create_check s userId amount isInline genId now).2.userWallets
      = s.userWallets := rfl

/-- Behaviour of `claim_check` on an unknown id. -/
theorem claim_check_notFound (s : StarState) (cid : String) (uid : Int)
    (now : Nat) (hc : pyGet s.starChecks cid = none) :
    claim_check s cid uid now = (ClaimResult.notFound, s) := by
  unfold claim_check
  rw [hc]

/-- Behaviour of `claim_check` on an already-claimed check. -/
theorem claim_check_claimed (s : StarState) (cid : String) (uid : Int)
    (now : Nat) (c : Check) (hc : pyGet s.starChecks cid = some c)
    (hcl : c.claimed = true) :
    claim_check s cid uid now = (ClaimResult.alreadyClaimed, s) := by
  unfold claim_check
  rw [hc]
  simp [hcl]

/-- Behaviour of `claim_check` on an unclaimed star check (`is_nft` false, positive
amount): marks it claimed, credits the wallet and reports the new balance. -/
theorem claim_check_unclaimed_stars (s : StarState) (cid : String) (uid : Int)
    (now : Nat) (c : Check) (hc : pyGet s.starChecks cid = some c)
    (hcl : c.claimed = false) (hnft : c.isNft = false) (hpos : 0 < c.amount) :
    claim_check s cid uid now
      = (ClaimResult.starsSuccess c.amount (get_user_wallet s uid + c.amount),
         (add_stars_to_wallet
            { s with starChecks := pySet s.starChecks cid (markClaimed c uid now) }
            uid c.amount).2) := by
  unfold claim_check
  rw [hc]
  simp [hcl, hnft, hpos, markClaimed, add_stars_fst]
  rfl

/-- Behaviour of `claim_check` on an unclaimed NFT check: marks it claimed, changes no
wallet, and reports the claimant's current balance. -/
theorem claim_check_unclaimed_nft (s : StarState) (cid : String) (uid : Int)
    (now : Nat) (c : Check) (hc : pyGet s.starChecks cid = some c)
    (hcl : c.claimed = false) (hnft : c.isNft = true) :
    claim_check s cid uid now
      = (ClaimResult.nftSuccess (get_user_wallet s uid),
         { s with starChecks := pySet s.starChecks cid (markClaimed c uid now) }) := by
  unfold claim_check
  rw [hc]
  simp [hcl, hnft, markClaimed]
  rfl

/-! ### Claim C2 -/

/-- C2, counterexample: with a balance of `5`, debiting `10` returns `0`
(the new balance), not `5` (the balance available immediately before the
debit), contrary to the claim. -/
theorem subtract_does_not_return_prior_balance :
    get_user_wallet { emptyStar with userWallets := [(1, 5)] } 1 = 5
    ∧ (subtract_stars_from_wallet
        { emptyStar with userWallets := [(1, 5)] } 1 10).1 = 0 := by
  constructor <;> rfl

/-- C2 (amended): debiting more than the balance zeroes the account and
returns the **new** balance `0` (not the previously available amount);
debiting at most the balance removes exactly the amount and returns the
new balance. -/
theorem subtract_saturates_and_returns_new_balance (s : StarState)
    (userId : Int) (amount : Rat) :
    (get_user_wallet s userId < amount →
      get_user_wallet (subtract_stars_from_wallet s userId amount).2 userId = 0
      ∧ (subtract_stars_from_wallet s userId amount).1 = 0)
    ∧ (amount ≤ get_user_wallet s userId →
      get_user_wallet (subtract_stars_from_wallet s userId amount).2 userId
        = get_user_wallet s userId - amount
      ∧ (subtract_stars_from_wallet s userId amount).1
        = get_user_wallet s userId - amount) := by
  constructor
  · intro h
    have h' : ¬ amount ≤ get_user_wallet s userId := not_le.mpr h
    rw [get_user_wallet_subtract_stars, subtract_stars_fst]
    simp [h']
  · intro h
    rw [get_user_wallet_subtract_stars, subtract_stars_fst]
    simp [h]

/-- C2 witness: the amended statement evaluated at a concrete state
(balance `5`, debit `10`, and balance `5`, debit `3`). -/
theorem subtract_saturates_witness :
    (get_user_wallet (subtract_stars_from_wallet
        { emptyStar with userWallets := [(1, 5)] } 1 10).2 1 = 0
      ∧ (subtract_stars_from_wallet
        { emptyStar with userWallets := [(1, 5)] } 1 10).1 = 0)
    ∧ (get_user_wallet (subtract_stars_from_wallet
        { emptyStar with userWallets := [(1, 5)] } 1 3).2 1
          = get_user_wallet { emptyStar with userWallets := [(1, 5)] } 1 - 3
      ∧ (subtract_stars_from_wallet
        { emptyStar with userWallets := [(1, 5)] } 1 3).1
          = get_user_wallet { emptyStar with userWallets := [(1, 5)] } 1 - 3) :=
  ⟨(subtract_saturates_and_returns_new_balance
      { emptyStar with userWallets := [(1, 5)] } 1 10).1 (by decide),
   (subtract_saturates_and_returns_new_balance
      { emptyStar with userWallets := [(1, 5)] } 1 3).2 (by decide)⟩

/-! ### Claim C1 -/

/-- C1: for every amount `a > 0`, issuing a voucher and claiming it once
returns a success carrying exactly `a` and the claimant's prior balance
plus `a`, credits the claimant's wallet by exactly `a`, and marks the
voucher claimed with the claimant recorded; a second claim of the same
voucher, by any identity, returns `AlreadyClaimed` and leaves every wallet
balance unchanged. -/
theorem issue_then_claim_credits_exactly_once (s : StarState)
    (issuer claimant anyUser : Int) (a : Rat) (ha : 0 < a) (genId : String)
    (t₀ t₁ t₂ : Nat) :
    (claim_check (create_check s issuer a false genId t₀).2 genId claimant t₁).1
      = ClaimResult.starsSuccess a (get_user_wallet s claimant + a)
    ∧ get_user_wallet
        (claim_check (create_check s issuer a false genId t₀).2 genId claimant t₁).2
        claimant
      = get_user_wallet s claimant + a
    ∧ (pyGet (claim_check (create_check s issuer a false genId t₀).2 genId
          claimant t₁).2.starChecks genId).map (fun c => (c.claimed, c.claimedBy))
      = some (true, some claimant)
    ∧ (claim_check
        (claim_check (create_check s issuer a false genId t₀).2 genId claimant t₁).2
        genId anyUser t₂).1 = ClaimResult.alreadyClaimed
    ∧ ∀ u : Int,
        get_user_wallet
          (claim_check
            (claim_check (create_check s issuer a false genId t₀).2 genId claimant t₁).2
            genId anyUser t₂).2 u
        = get_user_wallet
            (claim_check (create_check s issuer a false genId t₀).2 genId claimant t₁).2
            u := by
  have hc : pyGet (create_check s issuer a false genId t₀).2.starChecks genId
      = some (mkNewCheck issuer a t₀ false) := by
    rw [create_check_starChecks]; exact pyGet_pySet_self _ _ _
  have hnft : (mkNewCheck issuer a t₀ false).isNft = false := decide_eq_false ha.ne'
  have h1 := claim_check_unclaimed_stars (create_check s issuer a false genId t₀).2
    genId claimant t₁ _ hc rfl hnft ha
  have hc2 : pyGet (claim_check (create_check s issuer a false genId t₀).2 genId
      claimant t₁).2.starChecks genId
        = some (markClaimed (mkNewCheck issuer a t₀ false) claimant t₁) := by
    rw [h1, add_stars_starChecks]
    exact pyGet_pySet_self _ _ _
  have h2 := claim_check_claimed
    (claim_check (create_check s issuer a false genId t₀).2 genId claimant t₁).2
    genId anyUser t₂ _ hc2 rfl
  refine ⟨?_, ?_, ?_, ?_, ?_⟩
  · rw [h1]
    rfl
  · rw [h1, get_user_wallet_add_stars]
    simp [mkNewCheck]
    rfl
  · rw [hc2]
    simp [markClaimed]
  · rw [h2]
  · intro u
    rw [h2]

/-- C1 witness: the C1 theorem at the empty state, amount `100`, issuer `1`,
claimant `2`, second claimant `3`. -/
theorem issue_then_claim_credits_exactly_once_witness :
    (claim_check (create_check emptyStar 1 100 false "AAAA0001" 0).2 "AAAA0001" 2 1).1
      = ClaimResult.starsSuccess 100 (get_user_wallet emptyStar 2 + 100)
    ∧ get_user_wallet
        (claim_check (create_check emptyStar 1 100 false "AAAA0001" 0).2 "AAAA0001" 2 1).2 2
      = get_user_wallet emptyStar 2 + 100
    ∧ (pyGet (claim_check (create_check emptyStar 1 100 false "AAAA0001" 0).2 "AAAA0001"
          2 1).2.starChecks "AAAA0001").map (fun c => (c.claimed, c.claimedBy))
      = some (true, some 2)
    ∧ (claim_check
        (claim_check (create_check emptyStar 1 100 false "AAAA0001" 0).2 "AAAA0001" 2 1).2
        "AAAA0001" 3 2).1 = ClaimResult.alreadyClaimed
    ∧ ∀ u : Int,
        get_user_wallet
          (claim_check
            (claim_check (create_check emptyStar 1 100 false "AAAA0001" 0).2 "AAAA0001" 2 1).2
            "AAAA0001" 3 2).2 u
        = get_user_wallet
            (claim_check (create_check emptyStar 1 100 false "AAAA0001" 0).2 "AAAA0001" 2 1).2
            u :=
  issue_then_claim_credits_exactly_once emptyStar 1 2 3 100 (by norm_num)
    "AAAA0001" 0 1 2

/-! ### Claim C7 -/

/-- C7: a voucher issued with amount `0` is marked as the NFT (gift)
variant; claiming it succeeds (reporting the claimant's unchanged balance)
without changing any wallet balance, while flipping `claimed` exactly once:
a second claim returns `AlreadyClaimed`. -/
theorem zero_amount_gift_claim (s : StarState) (issuer claimant anyUser : Int)
    (genId : String) (t₀ t₁ t₂ : Nat) :
    (pyGet (create_check s issuer 0 false genId t₀).2.starChecks genId).map
        (fun c => c.isNft) = some true
    ∧ (claim_check (create_check s issuer 0 false genId t₀).2 genId claimant t₁).1
      = ClaimResult.nftSuccess (get_user_wallet s claimant)
    ∧ (∀ u : Int,
        get_user_wallet
          (claim_check (create_check s issuer 0 false genId t₀).2 genId claimant t₁).2 u
        = get_user_wallet s u)
    ∧ (pyGet (claim_check (create_check s issuer 0 false genId t₀).2 genId
          claimant t₁).2.starChecks genId).map (fun c => c.claimed) = some true
    ∧ (claim_check
        (claim_check (create_check s issuer 0 false genId t₀).2 genId claimant t₁).2
        genId anyUser t₂).1 = ClaimResult.alreadyClaimed := by
  have hc : pyGet (create_check s issuer 0 false genId t₀).2.starChecks genId
      = some (mkNewCheck issuer 0 t₀ false) := by
    rw [create_check_starChecks]; exact pyGet_pySet_self _ _ _
  have hnft : (mkNewCheck issuer 0 t₀ false).isNft = true := rfl
  have h1 := claim_check_unclaimed_nft (create_check s issuer 0 false genId t₀).2
    genId claimant t₁ _ hc rfl hnft
  have hc2 : pyGet (claim_check (create_check s issuer 0 false genId t₀).2 genId
      claimant t₁).2.starChecks genId
        = some (markClaimed (mkNewCheck issuer 0 t₀ false) claimant t₁) := by
    rw [h1]
    exact pyGet_pySet_self _ _ _
  have h2 := claim_check_claimed
    (claim_check (create_check s issuer 0 false genId t₀).2 genId claimant t₁).2
    genId anyUser t₂ _ hc2 rfl
  refine ⟨?_, ?_, ?_, ?_, ?_⟩
  · rw [hc]; exact congrArg some hnft
  · rw [h1]
    rfl
  · intro u
    rw [h1]
    rfl
  · rw [hc2]
    rfl
  · rw [h2]

/-! ### Claim C9 -/

/-- C9, counterexample: with one recorded submission, `limit = 0` returns
the whole list (Python's `[-0:]` is `[0:]`), not the empty sequence the
claim requires. -/
theorem recent_requests_zero_limit_not_empty :
    get_website_verifications
      { emptyVerif with websiteVerifications := [wvSample] } 0 = [wvSample]
    ∧ get_website_verifications
      { emptyVerif with websiteVerifications := [wvSample] } 0 ≠ [] :=
  ⟨rfl, by decide⟩

/-- C9 (amended): for `limit > 0` the result is the suffix of the recorded
external submissions of length `min limit n` (recording order, newest
last); for `limit = 0` the result is the **entire** list, because the
slice `[-0:]` starts at index `0`. -/
theorem recent_requests_amended (s : VerifState) (limit : Nat) :
    (get_website_verifications s 0 = s.websiteVerifications)
    ∧ (0 < limit →
        (s.websiteVerifications.take (s.websiteVerifications.length - limit)
            ++ get_website_verifications s limit = s.websiteVerifications)
        ∧ (get_website_verifications s limit).length
            = min limit s.websiteVerifications.length) := by
  constructor
  · by_cases h : s.websiteVerifications = [] <;>
      simp [get_website_verifications, h]
  · intro hl
    have hl' : limit ≠ 0 := Nat.pos_iff_ne_zero.mp hl
    by_cases h : s.websiteVerifications = []
    · simp [get_website_verifications, h]
    · constructor
      · simp [get_website_verifications, h, hl', List.take_append_drop]
      · simp only [get_website_verifications, h, hl', if_neg, ite_false,
          List.length_drop]
        omega

/-- C9 witness: the amended statement at a one-element list with
`limit = 2`. -/
theorem recent_requests_amended_witness :
    (get_website_verifications
        { emptyVerif with websiteVerifications := [wvSample] } 0
      = [wvSample])
    ∧ (([wvSample] : List WebsiteVerification).take (1 - 2)
          ++ get_website_verifications
              { emptyVerif with websiteVerifications := [wvSample] } 2
        = [wvSample])
    ∧ (get_website_verifications
        { emptyVerif with websiteVerifications := [wvSample] } 2).length
      = min 2 1 := by
  have h := recent_requests_amended
    { emptyVerif with websiteVerifications := [wvSample] } 2
  exact ⟨h.1, (h.2 (by decide)).1, by simpa using (h.2 (by decide)).2⟩

/-! ### Claim C3 -/

/-- C3, counterexample: with a voucher already stored under id `"AAAAAAAA"`
(amount `100`), `create_check` whose generated token collides returns that
same id and silently overwrites the existing record (its amount becomes
`50`); the source has no collision check or regeneration. -/
theorem create_check_collision_overwrites :
    (create_check
        { emptyStar with starChecks := [("AAAAAAAA", mkNewCheck 1 100 0 false)] }
        2 50 false "AAAAAAAA" 5).1.1 = "AAAAAAAA"
    ∧ (pyGet [("AAAAAAAA", mkNewCheck 1 100 0 false)] "AAAAAAAA").map
        (fun c => c.amount) = some 100
    ∧ (pyGet (create_check
        { emptyStar with starChecks := [("AAAAAAAA", mkNewCheck 1 100 0 false)] }
        2 50 false "AAAAAAAA" 5).2.starChecks "AAAAAAAA").map
        (fun c => c.amount) = some 50 :=
  ⟨rfl, rfl, rfl⟩

/-- C3 (amended): `create_check` uses the generated token as the voucher id
with no collision check.  Whenever the generated token is fresh (not a key
of the registry), the returned id is distinct from every existing voucher
id and no previously issued voucher's record is overwritten or altered;
on a collision the existing record is overwritten (the counterexample),
there is no regeneration. -/
theorem create_check_fresh_id_no_overwrite (s : StarState) (userId : Int)
    (amount : Rat) (isInline : Bool) (genId : String) (now : Nat)
    (hfresh : pyGet s.starChecks genId = none) :
    (create_check s userId amount isInline genId now).1.1 = genId
    ∧ (∀ k c, pyGet s.starChecks k = some c → k ≠ genId)
    ∧ (∀ k c, pyGet s.starChecks k = some c →
        pyGet (create_check s userId amount isInline genId now).2.starChecks k
          = some c) := by
  refine ⟨rfl, ?_, ?_⟩
  · intro k c hk hkg
    rw [hkg, hfresh] at hk
    exact Option.noConfusion hk
  · intro k c hk
    have hne : k ≠ genId := by
      intro hkg
      rw [hkg, hfresh] at hk
      exact Option.noConfusion hk
    rw [create_check_starChecks, pyGet_pySet_ne _ _ _ _ hne]
    exact hk

/-- C3 witness: issuing with fresh token `"BBBBBBBB"` over a registry that
already holds `"AAAAAAAA"` keeps the old record intact. -/
theorem create_check_fresh_id_no_overwrite_witness :
    (create_check
        { emptyStar with starChecks := [("AAAAAAAA", mkNewCheck 1 100 0 false)] }
        2 50 false "BBBBBBBB" 5).1.1 = "BBBBBBBB"
    ∧ (∀ k c,
        pyGet [("AAAAAAAA", mkNewCheck 1 100 0 false)] k = some c → k ≠ "BBBBBBBB")
    ∧ (∀ k c,
        pyGet [("AAAAAAAA", mkNewCheck 1 100 0 false)] k = some c →
        pyGet (create_check
          { emptyStar with starChecks := [("AAAAAAAA", mkNewCheck 1 100 0 false)] }
          2 50 false "BBBBBBBB" 5).2.starChecks k = some c) :=
  create_check_fresh_id_no_overwrite
    { emptyStar with starChecks := [("AAAAAAAA", mkNewCheck 1 100 0 false)] }
    2 50 false "BBBBBBBB" 5 rfl

/-! ### Claim C4 -/

/-- C4, counterexample: re-deciding an already-approved request does not
fail — `approve_verification` returns `True` again and overwrites the
decider and timestamp (the source only checks key membership, not the
status). -/
theorem approve_after_decide_succeeds_again :
    (approve_verification
        { emptyVerif with pendingVerifications := [("V1AAAAAA", decidedVerif)],
                          verifiedUsers := [42] }
        "V1AAAAAA" 2 9).1 = true
    ∧ (pyGet (approve_verification
        { emptyVerif with pendingVerifications := [("V1AAAAAA", decidedVerif)],
                          verifiedUsers := [42] }
        "V1AAAAAA" 2 9).2.pendingVerifications "V1AAAAAA").map
        (fun v => (v.approvedBy, v.approvedAt)) = some (some 2, some 9) :=
  ⟨rfl, rfl⟩

/-- C4 (amended): `approve_verification`/`reject_verification` fail (return
`False`, leaving the state unchanged) exactly when the id is unknown; on
any known request — pending **or already decided** — they succeed again,
overwriting status, decider and timestamp (approval also re-adds the
associated identity to the verified set, an idempotent union). -/
theorem decide_verification_checks_membership_only (s : VerifState)
    (vid : String) (adminId : Int) (now : Nat) :
    ((approve_verification s vid adminId now).1 = false
      ↔ pyGet s.pendingVerifications vid = none)
    ∧ ((reject_verification s vid adminId now).1 = false
      ↔ pyGet s.pendingVerifications vid = none)
    ∧ (pyGet s.pendingVerifications vid = none →
        (approve_verification s vid adminId now).2 = s
        ∧ (reject_verification s vid adminId now).2 = s)
    ∧ (∀ v, pyGet s.pendingVerifications vid = some v →
        (approve_verification s vid adminId now).1 = true
        ∧ pyGet (approve_verification s vid adminId now).2.pendingVerifications vid
            = some { v with status := "approved", approvedBy := some adminId,
                            approvedAt := some now }
        ∧ (approve_verification s vid adminId now).2.verifiedUsers
            = setAdd s.verifiedUsers v.userId
        ∧ (reject_verification s vid adminId now).1 = true
        ∧ pyGet (reject_verification s vid adminId now).2.pendingVerifications vid
            = some { v with status := "rejected", rejectedBy := some adminId,
                            rejectedAt := some now }) := by
  cases hv : pyGet s.pendingVerifications vid with
  | none =>
    have ha : approve_verification s vid adminId now = (false, s) := by
      unfold approve_verification; rw [hv]
    have hr : reject_verification s vid adminId now = (false, s) := by
      unfold reject_verification; rw [hv]
    rw [ha, hr]
    refine ⟨by simp, by simp, fun _ => ⟨rfl, rfl⟩, ?_⟩
    intro v hv2
    exact Option.noConfusion hv2
  | some v₀ =>
    have ha : approve_verification s vid adminId now
        = (true, VerifState.mk
            (pySet s.pendingVerifications vid
              { v₀ with status := "approved", approvedBy := some adminId,
                        approvedAt := some now })
            (setAdd s.verifiedUsers v₀.userId)
            s.websiteVerifications) := by
      unfold approve_verification; rw [hv]
    have hr : reject_verification s vid adminId now
        = (true, VerifState.mk
            (pySet s.pendingVerifications vid
              { v₀ with status := "rejected", rejectedBy := some adminId,
                        rejectedAt := some now })
            s.verifiedUsers
            s.websiteVerifications) := by
      unfold reject_verification; rw [hv]
    rw [ha, hr]
    refine ⟨by simp, by simp, ?_, ?_⟩
    · intro h
      exact Option.noConfusion h
    · intro v hv2
      obtain rfl : v₀ = v := Option.some_inj.mp hv2
      exact ⟨rfl, pyGet_pySet_self _ _ _, rfl, rfl, pyGet_pySet_self _ _ _⟩

/-- C4 witness: the amended statement's decided-request case evaluated at
the already-approved request `decidedVerif`. -/
theorem decide_verification_membership_witness :
    (approve_verification
        { emptyVerif with pendingVerifications := [("V1AAAAAA", decidedVerif)],
                          verifiedUsers := [42] }
        "V1AAAAAA" 5 11).1 = true
    ∧ pyGet (approve_verification
        { emptyVerif with pendingVerifications := [("V1AAAAAA", decidedVerif)],
                          verifiedUsers := [42] }
        "V1AAAAAA" 5 11).2.pendingVerifications "V1AAAAAA"
      = some { decidedVerif with status := "approved", approvedBy := some 5,
                                 approvedAt := some 11 }
    ∧ (approve_verification
        { emptyVerif with pendingVerifications := [("V1AAAAAA", decidedVerif)],
                          verifiedUsers := [42] }
        "V1AAAAAA" 5 11).2.verifiedUsers = setAdd [42] 42
    ∧ (reject_verification
        { emptyVerif with pendingVerifications := [("V1AAAAAA", decidedVerif)],
                          verifiedUsers := [42] }
        "V1AAAAAA" 5 11).1 = true
    ∧ pyGet (reject_verification
        { emptyVerif with pendingVerifications := [("V1AAAAAA", decidedVerif)],
                          verifiedUsers := [42] }
        "V1AAAAAA" 5 11).2.pendingVerifications "V1AAAAAA"
      = some { decidedVerif with status := "rejected", rejectedBy := some 5,
                                 rejectedAt := some 11 } :=
  (decide_verification_checks_membership_only
    { emptyVerif with pendingVerifications := [("V1AAAAAA", decidedVerif)],
                      verifiedUsers := [42] }
    "V1AAAAAA" 5 11).2.2.2 decidedVerif rfl

/-! ### Claim C10 -/

/-- C10: on a registry whose checks were all produced by `create_check`
with non-negative amounts (captured by `checkWellFormed`), `claim_check`
never reaches its final fallback branch (`'Неизвестная ошибка'`): the
result is a success, `NotFound`, or `AlreadyClaimed`; and `create_check`
with a non-negative amount preserves that shape. -/
theorem claim_check_never_unknown_error (s : StarState)
    (hs : ∀ p ∈ s.starChecks, checkWellFormed p.2) (cid : String) (uid : Int)
    (now : Nat) (issuer : Int) (a : Rat) (ha : 0 ≤ a) (isInline : Bool)
    (g : String) (t : Nat) :
    (claim_check s cid uid now).1 ≠ ClaimResult.unknownError
    ∧ ∀ p ∈ (create_check s issuer a isInline g t).2.starChecks,
        checkWellFormed p.2 := by
  constructor
  · cases hv : pyGet s.starChecks cid with
    | none =>
      rw [claim_check_notFound s cid uid now hv]
      simp
    | some c =>
      have hwf : checkWellFormed c := hs (cid, c) (pyGet_mem _ _ _ hv)
      by_cases hcl : c.claimed = true
      · rw [claim_check_claimed s cid uid now c hv hcl]
        simp
      · have hcl' : c.claimed = false := by
          revert hcl; cases c.claimed <;> simp
        by_cases hnft : c.isNft = true
        · rw [claim_check_unclaimed_nft s cid uid now c hv hcl' hnft]
          simp
        · have hnft' : c.isNft = false := by
            revert hnft; cases c.isNft <;> simp
          have hz : c.amount ≠ 0 :=
            of_decide_eq_false (hwf.2.symm.trans hnft')
          have hpos : 0 < c.amount := lt_of_le_of_ne hwf.1 (Ne.symm hz)
          rw [claim_check_unclaimed_stars s cid uid now c hv hcl' hnft' hpos]
          simp
  · intro p hp
    rw [create_check_starChecks] at hp
    rcases mem_pySet _ _ _ _ hp with h | h
    · rw [h]
      exact ⟨ha, rfl⟩
    · exact hs p h

/-- C10 witness: the theorem at the empty registry, amount `100`. -/
theorem claim_check_never_unknown_error_witness :
    (claim_check emptyStar "CCCC0003" 7 0).1 ≠ ClaimResult.unknownError
    ∧ ∀ p ∈ (create_check emptyStar 5 100 false "CCCC0003" 0).2.starChecks,
        checkWellFormed p.2 :=
  claim_check_never_unknown_error emptyStar (by simp [emptyStar]) "CCCC0003" 7 0
    5 100 (by norm_num) false "CCCC0003" 0

/-! ### Claim C5 -/

theorem add_stars_nonneg (s : StarState) (userId : Int) (a : Rat)
    (hs : WalletsNonneg s) (ha : 0 ≤ a) :
    WalletsNonneg (add_stars_to_wallet s userId a).2 := by
  intro u
  rw [get_user_wallet_add_stars]
  by_cases hu : u = userId
  · rw [if_pos hu]
    exact add_nonneg (hs userId) ha
  · rw [if_neg hu]
    exact hs u

theorem subtract_stars_nonneg (s : StarState) (userId : Int) (a : Rat)
    (hs : WalletsNonneg s) :
    WalletsNonneg (subtract_stars_from_wallet s userId a).2 := by
  intro u
  rw [get_user_wallet_subtract_stars]
  by_cases hu : u = userId
  · rw [if_pos hu]
    by_cases hc : a ≤ get_user_wallet s userId
    · rw [if_pos hc]
      exact sub_nonneg.mpr hc
    · rw [if_neg hc]
  · rw [if_neg hu]
    exact hs u

/-- The function `claim_check` never drives a balance negative: it either leaves the
wallets untouched or credits a positive voucher amount. -/
theorem claim_check_nonneg (s : StarState) (cid : String) (uid : Int)
    (now : Nat) (hs : WalletsNonneg s) :
    WalletsNonneg (claim_check s cid uid now).2 := by
  cases hv : pyGet s.starChecks cid with
  | none =>
    rw [claim_check_notFound s cid uid now hv]
    exact hs
  | some c =>
    by_cases hcl : c.claimed = true
    · rw [claim_check_claimed s cid uid now c hv hcl]
      exact hs
    · have hcl' : c.claimed = false := by
        revert hcl; cases c.claimed <;> simp
      have hs' : WalletsNonneg
          { s with starChecks := pySet s.starChecks cid (markClaimed c uid now) } :=
        hs
      by_cases hnft : c.isNft = true
      · rw [claim_check_unclaimed_nft s cid uid now c hv hcl' hnft]
        exact hs'
      · have hnft' : c.isNft = false := by
          revert hnft; cases c.isNft <;> simp
        by_cases hpos : 0 < c.amount
        · rw [claim_check_unclaimed_stars s cid uid now c hv hcl' hnft' hpos]
          exact add_stars_nonneg _ uid c.amount hs' (le_of_lt hpos)
        · -- non-positive, non-zero-flagged amount: the fallback branch,
          -- which also leaves the wallets untouched
          unfold claim_check
          rw [hv]
          simp only [hcl', Bool.false_eq_true, if_false, hnft',
            decide_eq_false hpos, Bool.and_false, if_true, ite_false]
          exact hs'

theorem applyOp_nonneg (s : StarState) (op : WalletOp)
    (hs : WalletsNonneg s) (hop : opPositive op) :
    WalletsNonneg (applyOp s op) := by
  cases op with
  | credit u a => exact add_stars_nonneg s u a hs (le_of_lt hop)
  | debit u a => exact subtract_stars_nonneg s u a hs
  | claim cid u now => exact claim_check_nonneg s cid u now hs
  | read u => exact hs

/-- C5: from any state with non-negative balances, running any sequence of
wallet operations whose credits (and debits) carry positive amounts keeps
every identity's balance non-negative after every operation (i.e. after
every prefix of the sequence). -/
theorem wallet_balances_never_negative (s : StarState) (hs : WalletsNonneg s)
    (ops : List WalletOp) (hops : ∀ op ∈ ops, opPositive op) (n : Nat) :
    WalletsNonneg ((ops.take n).foldl applyOp s) := by
  induction ops generalizing s n with
  | nil => simpa using hs
  | cons op rest ih =>
    cases n with
    | zero => simpa using hs
    | succ m =>
      rw [List.take_succ_cons, List.foldl_cons]
      exact ih (applyOp s op)
        (applyOp_nonneg s op hs (hops op (List.mem_cons_self _ _)))
        (fun o ho => hops o (List.mem_cons_of_mem _ ho)) m

/-- C5 witness: a concrete run — credit 5, over-debit 10, claim a check,
read — from the empty state. -/
theorem wallet_balances_never_negative_witness :
    WalletsNonneg
      (([WalletOp.credit 1 5, WalletOp.debit 1 10,
         WalletOp.claim "AAAA0001" 2 3, WalletOp.read 1].take 4).foldl
        applyOp emptyStar) :=
  wallet_balances_never_negative emptyStar
    (fun u => le_refl (0 : Rat))
    [WalletOp.credit 1 5, WalletOp.debit 1 10,
     WalletOp.claim "AAAA0001" 2 3, WalletOp.read 1]
    (by decide) 4

/-! ### Claim C6 -/

/-- C6, counterexample: the body
`{phone: " +15551234567", code: "123456"}` has a phone that does **not**
start with `'+'` (it starts with a space), yet the handler accepts and
records it, because it validates only the stripped value. -/
theorem webhook_accepts_unstripped_phone :
    (webhook_handler emptyVerif (some ⟨some " +15551234567", some "123456"⟩)
        "203.0.113.7" "BBBB2222" 4).1 = WebhookResult.accepted "BBBB2222"
    ∧ pyStartsWithPlus " +15551234567" = false
    ∧ (webhook_handler emptyVerif (some ⟨some " +15551234567", some "123456"⟩)
        "203.0.113.7" "BBBB2222" 4).2.websiteVerifications
      = [⟨"BBBB2222", "+15551234567", "123456", "203.0.113.7", 4, "pending"⟩] :=
  ⟨rfl, rfl, rfl⟩

/-- C6 (amended): a `{phone, code}` body is accepted iff, after stripping
surrounding whitespace, the phone starts with `'+'` and the code is exactly
6 digit characters (`str.isdigit`); an accepted submission is appended to
the recorded external submissions, a rejected one (4xx response) is never
recorded and leaves the state unchanged. -/
theorem webhook_accepts_iff_valid (s : VerifState) (d : WebhookBody)
    (ip genId : String) (now : Nat) :
    ((webhook_handler s (some d) ip genId now).1 = WebhookResult.accepted genId
      ↔ ValidSubmission (some d))
    ∧ webhook_handler s none ip genId now = (WebhookResult.noData, s)
    ∧ (ValidSubmission (some d) →
        (webhook_handler s (some d) ip genId now).2.websiteVerifications
          = s.websiteVerifications
            ++ [⟨genId, pyStrip (d.phone.getD ""), pyStrip (d.code.getD ""), ip,
                 now, "pending"⟩])
    ∧ (¬ ValidSubmission (some d) →
        (webhook_handler s (some d) ip genId now).2 = s) := by
  have key :
      (webhook_handler s (some d) ip genId now
          = (WebhookResult.accepted genId,
             { s with websiteVerifications :=
                 (s.websiteVerifications
                   ++ [⟨genId, pyStrip (d.phone.getD ""),
                        pyStrip (d.code.getD ""), ip, now, "pending"⟩]) })
        ∧ ValidSubmission (some d))
      ∨ ((webhook_handler s (some d) ip genId now).1 ≠ WebhookResult.accepted genId
         ∧ (webhook_handler s (some d) ip genId now).2 = s
         ∧ ¬ ValidSubmission (some d)) := by
    by_cases h1 : (pyStrip (d.phone.getD "")).data.isEmpty = true
    · right
      have hP0 : pyStartsWithPlus (pyStrip (d.phone.getD "")) = false := by
        unfold pyStartsWithPlus
        cases hd : (pyStrip (d.phone.getD "")).data with
        | nil => rfl
        | cons c cs => rw [hd] at h1; simp at h1
      refine ⟨?_, ?_, ?_⟩
      · simp [webhook_handler, h1]
      · simp [webhook_handler, h1]
      · intro hval
        exact absurd hval.1 (by simp [hP0])
    · have h1' : (pyStrip (d.phone.getD "")).data.isEmpty = false := by
        revert h1; cases (pyStrip (d.phone.getD "")).data.isEmpty <;> simp
      by_cases h2 : (pyStrip (d.code.getD "")).data.isEmpty = true
      · right
        refine ⟨?_, ?_, ?_⟩
        · simp [webhook_handler, h1', h2]
        · simp [webhook_handler, h1', h2]
        · intro hval
          have hdig := hval.2.2
          rw [pyIsDigitStr, h2] at hdig
          simp at hdig
      · have h2' : (pyStrip (d.code.getD "")).data.isEmpty = false := by
          revert h2; cases (pyStrip (d.code.getD "")).data.isEmpty <;> simp
        by_cases h3 : pyStartsWithPlus (pyStrip (d.phone.getD "")) = true
        · by_cases h4 : (pyStrip (d.code.getD "")).length = 6
          · by_cases h5 : pyIsDigitStr (pyStrip (d.code.getD "")) = true
            · left
              constructor
              · unfold webhook_handler add_website_verification
                simp [h1', h2', h3, h4, h5]
              · exact ⟨h3, h4, h5⟩
            · right
              have h5' : pyIsDigitStr (pyStrip (d.code.getD "")) = false := by
                revert h5; cases pyIsDigitStr (pyStrip (d.code.getD "")) <;> simp
              refine ⟨?_, ?_, ?_⟩
              · simp [webhook_handler, h1', h2', h3, h5']
              · simp [webhook_handler, h1', h2', h3, h5']
              · intro hval
                exact absurd hval.2.2 (by simp [h5'])
          · right
            refine ⟨?_, ?_, ?_⟩
            · simp [webhook_handler, h1', h2', h3, h4]
            · simp [webhook_handler, h1', h2', h3, h4]
            · intro hval
              exact absurd hval.2.1 h4
        · right
          have h3' : pyStartsWithPlus (pyStrip (d.phone.getD "")) = false := by
            revert h3; cases pyStartsWithPlus (pyStrip (d.phone.getD "")) <;> simp
          refine ⟨?_, ?_, ?_⟩
          · simp [webhook_handler, h1', h2', h3']
          · simp [webhook_handler, h1', h2', h3']
          · intro hval
            exact absurd hval.1 (by simp [h3'])
  rcases key with ⟨hh, hv⟩ | ⟨hne, hst, hv⟩
  · refine ⟨?_, rfl, ?_, ?_⟩
    · rw [hh]
      exact ⟨fun _ => hv, fun _ => rfl⟩
    · intro _
      rw [hh]
    · intro hf
      exact absurd hv hf
  · refine ⟨?_, rfl, ?_, ?_⟩
    · exact ⟨fun h => absurd h hne, fun h => absurd h hv⟩
    · intro hvt
      exact absurd hvt hv
    · intro _
      exact hst

/-- C6 witness: a well-formed body is accepted and recorded; the body with
a `"12345"` code is rejected and not recorded. -/
theorem webhook_accepts_iff_valid_witness :
    ((webhook_handler emptyVerif (some ⟨some "+15551234567", some "123456"⟩)
        "198.51.100.9" "CCCC3333" 6).1 = WebhookResult.accepted "CCCC3333"
      ↔ ValidSubmission (some ⟨some "+15551234567", some "123456"⟩))
    ∧ (ValidSubmission (some ⟨some "+15551234567", some "123456"⟩) →
        (webhook_handler emptyVerif (some ⟨some "+15551234567", some "123456"⟩)
          "198.51.100.9" "CCCC3333" 6).2.websiteVerifications
        = emptyVerif.websiteVerifications
          ++ [⟨"CCCC3333", pyStrip "+15551234567", pyStrip "123456",
               "198.51.100.9", 6, "pending"⟩])
    ∧ (¬ ValidSubmission (some ⟨some "+15551234567", some "12345"⟩) →
        (webhook_handler emptyVerif (some ⟨some "+15551234567", some "12345"⟩)
          "198.51.100.9" "DDDD4444" 6).2 = emptyVerif) :=
  ⟨(webhook_accepts_iff_valid emptyVerif ⟨some "+15551234567", some "123456"⟩
      "198.51.100.9" "CCCC3333" 6).1,
   (webhook_accepts_iff_valid emptyVerif ⟨some "+15551234567", some "123456"⟩
      "198.51.100.9" "CCCC3333" 6).2.2.1,
   (webhook_accepts_iff_valid emptyVerif ⟨some "+15551234567", some "12345"⟩
      "198.51.100.9" "DDDD4444" 6).2.2.2⟩

/-! ### Claim C8 -/

/-- C8, counterexample: `"nan"` is accepted by `float()` — so it parses as
a number — and NaN is certainly not a decimal in `(0, 10000]`, yet the
range check `amount <= 0 or amount > 10000` is false on NaN (both
comparisons are), so no invalid-amount error is surfaced and the
conversation **ends** instead of retaining the awaiting state; the source
goes on to issue a check carrying the NaN amount. -/
theorem nan_amount_passes_range_check :
    pyParseFloat "nan" = some PyFloat.nan
    ∧ (pyFloatLe PyFloat.nan 0 || pyFloatGt PyFloat.nan 10000) = false
    ∧ (get_custom_amount emptyStar "nan" 1 "AAAA4242" 0).1 = ConvState.ended
    ∧ (get_custom_amount emptyStar "nan" 1 "AAAA4242" 0).2.1
        = AmountOutcome.acceptedNonFinite
    ∧ (get_custom_amount emptyStar "nan" 1 "AAAA4242" 0).2.1
        ≠ AmountOutcome.invalidRange
    ∧ (get_custom_amount emptyStar "nan" 1 "AAAA4242" 0).2.1
        ≠ AmountOutcome.invalidNumber := by
  refine ⟨by decide, rfl, rfl, rfl, by decide, by decide⟩

/-- C8 (amended): in the awaiting-custom-amount state, text `float()`
rejects surfaces an invalid-amount error and keeps the conversation in
`GET_AMOUNT` with the bot state untouched (the next input is processed the
same way, with no attempt limit); text parsing to a **finite** float
outside `(0, 10000]` (e.g. `"15000"`), or to `±inf`, likewise errors and
retains the state; text parsing to a finite float in `(0, 10000]`
(e.g. `"150"`) issues a voucher for exactly that amount through the
registry and ends the flow; but text parsing to NaN (`"nan"`) passes the
range check — both of its comparisons are false — so the flow ends with a
check issued for the NaN amount and no error. -/
theorem custom_amount_flow (s : StarState) (userId : Int) (g₁ g₂ : String)
    (t₁ t₂ : Nat) :
    get_custom_amount s "15000" userId g₁ t₁
      = (ConvState.getAmount, AmountOutcome.invalidRange, s)
    ∧ (∀ text : String, pyParseFloat text = none →
        get_custom_amount s text userId g₁ t₁
          = (ConvState.getAmount, AmountOutcome.invalidNumber, s))
    ∧ (∀ (text : String) (q : Rat),
        pyParseFloat text = some (PyFloat.finite q) → (q ≤ 0 ∨ 10000 < q) →
        get_custom_amount s text userId g₁ t₁
          = (ConvState.getAmount, AmountOutcome.invalidRange, s))
    ∧ (∀ text : String,
        pyParseFloat text = some PyFloat.inf
          ∨ pyParseFloat text = some PyFloat.negInf →
        get_custom_amount s text userId g₁ t₁
          = (ConvState.getAmount, AmountOutcome.invalidRange, s))
    ∧ (get_custom_amount s "150" userId g₂ t₂).1 = ConvState.ended
    ∧ (pyGet (get_custom_amount s "150" userId g₂ t₂).2.2.starChecks g₂).map
        (fun c => c.amount) = some 150
    ∧ (∀ (text : String) (q : Rat),
        pyParseFloat text = some (PyFloat.finite q) → 0 < q → q ≤ 10000 →
        (get_custom_amount s text userId g₁ t₁).1 = ConvState.ended
        ∧ (pyGet (get_custom_amount s text userId g₁ t₁).2.2.starChecks g₁).map
            (fun c => c.amount) = some q)
    ∧ (∀ text : String, pyParseFloat text = some PyFloat.nan →
        (get_custom_amount s text userId g₁ t₁).1 = ConvState.ended
        ∧ (get_custom_amount s text userId g₁ t₁).2.1
            = AmountOutcome.acceptedNonFinite) := by
  have hp15000 : pyParseFloat "15000" = some (PyFloat.finite 15000) := by decide
  have hp150 : pyParseFloat "150" = some (PyFloat.finite 150) := by decide
  have hgen : ∀ (text : String) (q : Rat),
      pyParseFloat text = some (PyFloat.finite q) → 0 < q → q ≤ 10000 →
      get_custom_amount s text userId g₁ t₁
        = (ConvState.ended,
           AmountOutcome.created (generate_check s userId q g₁ t₁).1.1
             (generate_check s userId q g₁ t₁).1.2,
           (generate_check s userId q g₁ t₁).2) := by
    intro text q hp ha hle
    have hb1 : pyFloatLe (PyFloat.finite q) 0 = false :=
      decide_eq_false (not_le.mpr ha)
    have hb2 : pyFloatGt (PyFloat.finite q) 10000 = false :=
      decide_eq_false (not_lt.mpr hle)
    unfold get_custom_amount
    rw [hp]
    simp [hb1, hb2]
  have h150 : get_custom_amount s "150" userId g₂ t₂
      = (ConvState.ended,
         AmountOutcome.created (generate_check s userId 150 g₂ t₂).1.1
           (generate_check s userId 150 g₂ t₂).1.2,
         (generate_check s userId 150 g₂ t₂).2) := by
    have hb1 : pyFloatLe (PyFloat.finite 150) 0 = false := by decide
    have hb2 : pyFloatGt (PyFloat.finite 150) 10000 = false := by decide
    unfold get_custom_amount
    rw [hp150]
    simp [hb1, hb2]
  refine ⟨?_, ?_, ?_, ?_, ?_, ?_, ?_, ?_⟩
  · have hb : pyFloatGt (PyFloat.finite 15000) 10000 = true := by decide
    unfold get_custom_amount
    rw [hp15000]
    simp [hb]
  · intro text hp
    unfold get_custom_amount
    rw [hp]
  · intro text q hp hout
    have hb : (pyFloatLe (PyFloat.finite q) 0
        || pyFloatGt (PyFloat.finite q) 10000) = true := by
      rcases hout with h | h
      · have : pyFloatLe (PyFloat.finite q) 0 = true := decide_eq_true h
        simp [this]
      · have : pyFloatGt (PyFloat.finite q) 10000 = true := decide_eq_true h
        simp [this]
    unfold get_custom_amount
    rw [hp]
    simp only [hb, if_true, ite_true]
  · intro text hp
    rcases hp with h | h <;>
      · unfold get_custom_amount
        rw [h]
        simp [pyFloatLe, pyFloatGt]
  · rw [h150]
  · rw [h150]
    show (pyGet (create_check s userId 150 false g₂ t₂).2.starChecks g₂).map
      (fun c => c.amount) = some 150
    rw [create_check_starChecks, pyGet_pySet_self]
    rfl
  · intro text q hp ha hle
    refine ⟨by rw [hgen text q hp ha hle], ?_⟩
    rw [hgen text q hp ha hle]
    show (pyGet (create_check s userId q false g₁ t₁).2.starChecks g₁).map
      (fun c => c.amount) = some q
    rw [create_check_starChecks, pyGet_pySet_self]
    rfl
  · intro text hp
    have hred : get_custom_amount s text userId g₁ t₁
        = (ConvState.ended, AmountOutcome.acceptedNonFinite, s) := by
      unfold get_custom_amount
      rw [hp]
      simp [pyFloatLe, pyFloatGt]
    rw [hred]
    exact ⟨rfl, rfl⟩

/-- C8 witness: the amended theorem at the empty state; its quantified
parts evaluated at `"abc"` (a `ValueError`), `"99999"` (finite, out of
range), `"inf"` (accepted by `float`, rejected by the range check),
`"2500"`, `"1e3"` and `"1_0"` (all three `float()`-accepted and issued for
exactly 2500, 1000 and 10), and `"nan"` (ends the flow with no error). -/
theorem custom_amount_flow_witness :
    get_custom_amount emptyStar "15000" 1 "EEEE0005" 0
      = (ConvState.getAmount, AmountOutcome.invalidRange, emptyStar)
    ∧ get_custom_amount emptyStar "abc" 1 "EEEE0005" 0
      = (ConvState.getAmount, AmountOutcome.invalidNumber, emptyStar)
    ∧ get_custom_amount emptyStar "99999" 1 "EEEE0005" 0
      = (ConvState.getAmount, AmountOutcome.invalidRange, emptyStar)
    ∧ get_custom_amount emptyStar "inf" 1 "EEEE0005" 0
      = (ConvState.getAmount, AmountOutcome.invalidRange, emptyStar)
    ∧ (get_custom_amount emptyStar "150" 1 "FFFF0006" 0).1 = ConvState.ended
    ∧ (pyGet (get_custom_amount emptyStar "150" 1 "FFFF0006" 0).2.2.starChecks
        "FFFF0006").map (fun c => c.amount) = some 150
    ∧ ((get_custom_amount emptyStar "2500" 1 "EEEE0005" 0).1 = ConvState.ended
        ∧ (pyGet (get_custom_amount emptyStar "2500" 1 "EEEE0005" 0).2.2.starChecks
            "EEEE0005").map (fun c => c.amount) = some 2500)
    ∧ ((get_custom_amount emptyStar "1e3" 1 "EEEE0005" 0).1 = ConvState.ended
        ∧ (pyGet (get_custom_amount emptyStar "1e3" 1 "EEEE0005" 0).2.2.starChecks
            "EEEE0005").map (fun c => c.amount) = some 1000)
    ∧ ((get_custom_amount emptyStar "1_0" 1 "EEEE0005" 0).1 = ConvState.ended
        ∧ (pyGet (get_custom_amount emptyStar "1_0" 1 "EEEE0005" 0).2.2.starChecks
            "EEEE0005").map (fun c => c.amount) = some 10)
    ∧ ((get_custom_amount emptyStar "nan" 1 "EEEE0005" 0).1 = ConvState.ended
        ∧ (get_custom_amount emptyStar "nan" 1 "EEEE0005" 0).2.1
            = AmountOutcome.acceptedNonFinite) := by
  have h := custom_amount_flow emptyStar 1 "EEEE0005" "FFFF0006" 0 0
  exact ⟨h.1,
    h.2.1 "abc" (by decide),
    h.2.2.1 "99999" 99999 (by decide) (Or.inr (by norm_num)),
    h.2.2.2.1 "inf" (Or.inl (by decide)),
    h.2.2.2.2.1,
    h.2.2.2.2.2.1,
    h.2.2.2.2.2.2.1 "2500" 2500 (by decide) (by norm_num) (by norm_num),
    h.2.2.2.2.2.2.1 "1e3" 1000 (by decide) (by norm_num) (by norm_num),
    h.2.2.2.2.2.2.1 "1_0" 10 (by decide) (by norm_num) (by norm_num),
    h.2.2.2.2.2.2.2 "nan" (by decide)⟩

end StarBot
